import Mathlib

/-!
Verification of the InputSourceToggle repository (`input_source_toggle.py`).

The development shallowly embeds the two pieces of logic of the program:

* the chord detector: the event-tap callback defined inside
  `InputSourceToggleApp.startMonitoring` (function `callback`), acting on the
  app's mutable fields `enabled`, `ctrl_pressed`, `cmd_pressed`,
  `left_shift_pressed`, `shortcut_mode`;
* the input-source switcher: `InputSourceToggleApp.toggleInputSource`,
  together with the helpers `cfstring_to_string` and `cfstring_equals`,
  modelled over an explicit oracle of the OS text-input-source state, with the
  acquisition and release of the two OS-owned handles (the source list created
  by `TISCreateInputSourceList` and the handle copied by
  `TISCopyCurrentKeyboardInputSource`) recorded in a trace;
* the preference round trip: `loadPreferences` / `savePreferences`.

Stateful Python code becomes explicit state passing; Python exceptions become
`Except`; CFString handles become the inductive `CFStr` whose conversion can
yield a string, yield `None`, or raise (a `UnicodeDecodeError` inside
`cfstring_to_string`'s `decode`).
-/

namespace InputSourceToggle

/-- The string literal `SHORTCUT_CTRL_SHIFT = "ctrl_shift"` of the source. -/
def SHORTCUT_CTRL_SHIFT : String := "ctrl_shift"

/-- The string literal `SHORTCUT_CMD_SHIFT = "cmd_shift"` of the source. -/
def SHORTCUT_CMD_SHIFT : String := "cmd_shift"

/-- The string literal `SHORTCUT_BOTH = "both"` of the source. -/
def SHORTCUT_BOTH : String := "both"

/-- Quartz constant `kCGEventFlagMaskShift` (0x20000). -/
def kCGEventFlagMaskShift : Nat := 131072

/-- Quartz constant `kCGEventFlagMaskControl` (0x40000). -/
def kCGEventFlagMaskControl : Nat := 262144

/-- Quartz constant `kCGEventFlagMaskCommand` (0x100000). -/
def kCGEventFlagMaskCommand : Nat := 1048576

/-- The mutable fields of `InputSourceToggleApp` that the event callback and
the preference code read and write (class attributes, lines 96-102). -/
structure AppState where
  enabled : Bool
  ctrl_pressed : Bool
  cmd_pressed : Bool
  left_shift_pressed : Bool
  shortcut_mode : String
  deriving DecidableEq, Repr

/-- The fresh-startup values of those fields: `enabled = True`, the three
modifier booleans `False`, `shortcut_mode = SHORTCUT_CTRL_SHIFT`. -/
def initialApp : AppState :=
  { enabled := true
    ctrl_pressed := false
    cmd_pressed := false
    left_shift_pressed := false
    shortcut_mode := SHORTCUT_CTRL_SHIFT }

/-- A flags-changed event as the callback consumes it: the keycode read by
`CGEventGetIntegerValueField(event, kCGKeyboardEventKeycode)` and the full
modifier bitmask read by `CGEventGetFlags(event)`. -/
structure Event where
  keycode : Nat
  flags : Nat
  deriving DecidableEq, Repr

/-- `ctrl_down = bool(flags & kCGEventFlagMaskControl)`. -/
def eventCtrlDown (e : Event) : Bool :=
  decide (e.flags &&& kCGEventFlagMaskControl ≠ 0)

/-- `cmd_down = bool(flags & kCGEventFlagMaskCommand)`. -/
def eventCmdDown (e : Event) : Bool :=
  decide (e.flags &&& kCGEventFlagMaskCommand ≠ 0)

/-- `shift_down = bool(flags & kCGEventFlagMaskShift)`. -/
def eventShiftDown (e : Event) : Bool :=
  decide (e.flags &&& kCGEventFlagMaskShift ≠ 0)

/-- What one invocation of the callback produces: the updated app state,
whether `toggleInputSource` was invoked (the Toggle signal), and the value
returned to the event tap (the event itself). -/
structure CallbackResult where
  state : AppState
  toggled : Bool
  returned : Event
  deriving DecidableEq, Repr

/-- The `should_toggle` computation of the left-shift-release branch
(lines 335-343), evaluated against the state current at that point. -/
def shouldToggle (app : AppState) : Bool :=
  if app.left_shift_pressed = true then
    if app.shortcut_mode = SHORTCUT_CTRL_SHIFT ∧ app.ctrl_pressed = true then true
    else if app.shortcut_mode = SHORTCUT_CMD_SHIFT ∧ app.cmd_pressed = true then true
    else if app.shortcut_mode = SHORTCUT_BOTH ∧
        (app.ctrl_pressed = true ∨ app.cmd_pressed = true) then true
    else false
  else false

/-- The `keycode == 56` branch of the callback (lines 330-348): on a press
set `left_shift_pressed`; on a release compute `should_toggle` against the
pre-reset state, then unconditionally reset `left_shift_pressed`. The second
component is whether `toggleInputSource` is invoked. -/
def handleLeftShift (app : AppState) (shift_down : Bool) : AppState × Bool :=
  if shift_down = true then
    ({ app with left_shift_pressed := true }, false)
  else
    ({ app with left_shift_pressed := false }, shouldToggle app)

/-- The event-tap callback (lines 310-356). When `enabled` is false it
returns the event at once, touching nothing. Otherwise it updates
`ctrl_pressed` on keycodes 59/62, `cmd_pressed` on keycodes 55/54, runs the
left-shift logic on keycode 56, and finally clears `ctrl_pressed` /
`cmd_pressed` whenever the event's bitmask has the respective modifier up.
The event is returned in every path. -/
def callback (app : AppState) (event : Event) : CallbackResult :=
  if app.enabled = false then
    ⟨app, false, event⟩
  else
    let ctrl_down := eventCtrlDown event
    let cmd_down := eventCmdDown event
    let shift_down := eventShiftDown event
    let app1 :=
      if event.keycode = 59 ∨ event.keycode = 62 then
        { app with ctrl_pressed := ctrl_down }
      else app
    let app2 :=
      if event.keycode = 55 ∨ event.keycode = 54 then
        { app1 with cmd_pressed := cmd_down }
      else app1
    let step :=
      if event.keycode = 56 then handleLeftShift app2 shift_down else (app2, false)
    let app3 := step.1
    let toggled := step.2
    let app4 := if ctrl_down = false then { app3 with ctrl_pressed := false } else app3
    let app5 := if cmd_down = false then { app4 with cmd_pressed := false } else app4
    ⟨app5, toggled, event⟩

/-- A CFString handle as `cfstring_to_string` consumes it: NULL, a handle
converting to a string, a handle on which `CFStringGetCString` fails, or a
handle whose buffer makes `decode('utf-8')` raise `UnicodeDecodeError`. -/
inductive CFStr where
  | null : CFStr
  | str : String → CFStr
  | bad : CFStr
  | raisesDecode : CFStr
  deriving DecidableEq, Repr

/-- Truthiness of the handle in Python (`if not cfstr`). -/
def CFStr.isNull : CFStr → Bool
  | CFStr.null => true
  | _ => false

/-- `cfstring_to_string` (lines 76-83): `None` for a NULL handle, the
decoded string when `CFStringGetCString` succeeds, `None` when it fails;
the `decode` call can raise, modelled by the `Except.error` outcome. -/
def cfstring_to_string : CFStr → Except Unit (Option String)
  | CFStr.null => Except.ok none
  | CFStr.str s => Except.ok (some s)
  | CFStr.bad => Except.ok none
  | CFStr.raisesDecode => Except.error ()

/-- `cfstring_equals` (lines 86-90): convert both handles, compare the
resulting `Option String` values; a raise in either conversion propagates. -/
def cfstring_equals (c1 c2 : CFStr) : Except Unit Bool :=
  match cfstring_to_string c1 with
  | Except.error e => Except.error e
  | Except.ok s1 =>
    match cfstring_to_string c2 with
    | Except.error e => Except.error e
    | Except.ok s2 => Except.ok (decide (s1 = s2))

/-- The Carbon constant `kTISCategoryKeyboardInputSource`, a CFString. -/
def kTISCategoryKeyboardInputSource : CFStr :=
  CFStr.str "TISCategoryKeyboardInputSource"

/-- An input source as the switcher observes it: the four properties read
via `TISGetInputSourceProperty`. `selectCapable` is the
`kTISPropertyInputSourceIsSelectCapable` CFBoolean (`none` models a NULL
property pointer, `some b` the value `CFBooleanGetValue` reads). -/
structure InputSource where
  category : CFStr
  selectCapable : Option Bool
  sourceID : CFStr
  localizedName : CFStr
  deriving DecidableEq, Repr

/-- Placeholder for out-of-range list indexing (never reached: the index is
taken modulo the length). -/
def defaultSource : InputSource :=
  ⟨CFStr.null, none, CFStr.null, CFStr.null⟩

/-- The filter loop of `toggleInputSource` (lines 400-415): keep a source
when its category and select-capable property pointers are non-NULL, its
category CFString equals `kTISCategoryKeyboardInputSource`, and its
CFBoolean is true. A raise inside `cfstring_equals` aborts the loop. -/
def filterSelectable : List InputSource → Except Unit (List InputSource)
  | [] => Except.ok []
  | s :: rest =>
    if s.category.isNull = false ∧ s.selectCapable.isSome = true then
      match cfstring_equals s.category kTISCategoryKeyboardInputSource with
      | Except.error e => Except.error e
      | Except.ok isKeyboard =>
        match filterSelectable rest with
        | Except.error e => Except.error e
        | Except.ok tail =>
          if isKeyboard = true ∧ s.selectCapable.getD false = true then
            Except.ok (s :: tail)
          else
            Except.ok tail
    else
      filterSelectable rest

/-- The current-index loop of `toggleInputSource` (lines 429-436): walk the
filtered list with a running index, return the index of the first source
whose converted id equals `current_id_str` (`none` when no source matches);
a raise in an id conversion before the first match aborts the loop. -/
def findCurrentIndexAux (current_id_str : Option String) :
    List InputSource → Nat → Except Unit (Option Nat)
  | [], _ => Except.ok none
  | s :: rest, i =>
    match cfstring_to_string s.sourceID with
    | Except.error e => Except.error e
    | Except.ok sid =>
      if sid = current_id_str then Except.ok (some i)
      else findCurrentIndexAux current_id_str rest (i + 1)

/-- The OS text-input state one `toggleInputSource` invocation observes:
the array `TISCreateInputSourceList` creates (`none` models a NULL return)
and the `kTISPropertyInputSourceID` CFString of the handle
`TISCopyCurrentKeyboardInputSource` copies. -/
structure OSWorld where
  sourceList : Option (List InputSource)
  currentID : CFStr
  deriving DecidableEq, Repr

/-- What one `toggleInputSource` invocation did: which of the two OS-owned
handles (the created source list, the copied current source) it acquired
and released, which source it passed to `TISSelectInputSource`, and whether
`showFeedback` ran. -/
structure ToggleTrace where
  acquiredSources : Bool
  releasedSources : Bool
  acquiredCurrent : Bool
  releasedCurrent : Bool
  activated : Option InputSource
  feedbackShown : Bool
  deriving DecidableEq, Repr

/-- The trace of an invocation that acquired nothing and did nothing. -/
def noTrace : ToggleTrace :=
  ⟨false, false, false, false, none, false⟩

/-- The body of the `try` block of `toggleInputSource` (lines 392-455).
`Except.error` carries the trace accumulated when the Python exception was
raised; `Except.ok` the trace of a completed body. Mirrors the source order:
create the list (NULL → plain return), filter, early return releasing the
list when fewer than two sources qualify, copy the current source, convert
its id, find the current index (0 when absent), select the next source
circularly, convert its name for the log, show feedback, release both
handles. -/
def toggleBody (w : OSWorld) : Except ToggleTrace ToggleTrace :=
  match w.sourceList with
  | none => Except.ok noTrace
  | some lst =>
    let t1 : ToggleTrace := { noTrace with acquiredSources := true }
    match filterSelectable lst with
    | Except.error _ => Except.error t1
    | Except.ok selectable =>
      if selectable.length < 2 then
        Except.ok { t1 with releasedSources := true }
      else
        let t2 := { t1 with acquiredCurrent := true }
        match cfstring_to_string w.currentID with
        | Except.error _ => Except.error t2
        | Except.ok current_id_str =>
          match findCurrentIndexAux current_id_str selectable 0 with
          | Except.error _ => Except.error t2
          | Except.ok idxOpt =>
            let current_idx := idxOpt.getD 0
            let next_idx := (current_idx + 1) % selectable.length
            let next_source := selectable.getD next_idx defaultSource
            let t3 := { t2 with activated := some next_source }
            match cfstring_to_string next_source.localizedName with
            | Except.error _ => Except.error t3
            | Except.ok _ =>
              Except.ok { t3 with
                feedbackShown := true
                releasedSources := true
                releasedCurrent := true }

/-- The outcome of `toggleInputSource` as its caller sees it: the trace,
and whether the `except` clause caught (and logged) an exception. The
invocation itself always returns. -/
structure ToggleResult where
  trace : ToggleTrace
  caughtError : Bool
  deriving DecidableEq, Repr

/-- `toggleInputSource` (lines 389-458): the `try` body wrapped in the
`except Exception` handler, which logs the error and falls through to a
normal return. -/
def toggleInputSource (w : OSWorld) : ToggleResult :=
  match toggleBody w with
  | Except.ok t => ⟨t, false⟩
  | Except.error t => ⟨t, true⟩

/-- A conversion that does not raise (`CFStr.raisesDecode` is the only
raising constructor). -/
def decodesOk : CFStr → Bool
  | CFStr.raisesDecode => false
  | _ => true

/-- The value a non-raising conversion yields. -/
def cfDecoded : CFStr → Option String
  | CFStr.str s => some s
  | _ => none

/-- Index of the first source of the list whose id equals the current
source's id, stated from the claim's words (`none` when no id matches). -/
def claimIndex (cur : Option String) : List InputSource → Option Nat
  | [] => none
  | s :: rest =>
    if cfDecoded s.sourceID = cur then some 0
    else (claimIndex cur rest).map (· + 1)

/-- The persisted preference store: the value under the key
`shortcut_mode` in `NSUserDefaults.standardUserDefaults()` (`none` when the
key is absent or holds no string). -/
structure PrefStore where
  shortcut_mode : Option String
  deriving DecidableEq, Repr

/-- `loadPreferences` (lines 200-205): read the stored string; adopt it
only when it is truthy and one of the three literals, otherwise keep the
current mode. -/
def loadPreferences (defaults : PrefStore) (app : AppState) : AppState :=
  match defaults.shortcut_mode with
  | none => app
  | some mode =>
    if mode ≠ "" ∧ (mode = SHORTCUT_CTRL_SHIFT ∨ mode = SHORTCUT_CMD_SHIFT ∨
        mode = SHORTCUT_BOTH) then
      { app with shortcut_mode := mode }
    else app

/-- `savePreferences` (lines 207-211): write the current mode under the key
`shortcut_mode` and synchronize. -/
def savePreferences (app : AppState) (defaults : PrefStore) : PrefStore :=
  { defaults with shortcut_mode := some app.shortcut_mode }

/-- `setCtrlShift_` (lines 233-237) without its menu bookkeeping: set the
mode and persist it. -/
def setCtrlShift (app : AppState) (defaults : PrefStore) : AppState × PrefStore :=
  let app1 := { app with shortcut_mode := SHORTCUT_CTRL_SHIFT }
  (app1, savePreferences app1 defaults)

/-- `setCmdShift_` (lines 239-243) without its menu bookkeeping. -/
def setCmdShift (app : AppState) (defaults : PrefStore) : AppState × PrefStore :=
  let app1 := { app with shortcut_mode := SHORTCUT_CMD_SHIFT }
  (app1, savePreferences app1 defaults)

/-- `setBoth_` (lines 245-249) without its menu bookkeeping. -/
def setBoth (app : AppState) (defaults : PrefStore) : AppState × PrefStore :=
  let app1 := { app with shortcut_mode := SHORTCUT_BOTH }
  (app1, savePreferences app1 defaults)

end InputSourceToggle

namespace InputSourceToggle

/-- C5: for every incoming event and every detector state, enabled or
disabled, the callback returns the event to the event tap unmodified;
no event is dropped or transformed. -/
theorem callback_returns_event (app : AppState) (e : Event) :
    (callback app e).returned = e := by
  unfold callback
  split <;> rfl

end InputSourceToggle

namespace InputSourceToggle

/-- C1: while enabled, the callback emits a Toggle (invokes
`toggleInputSource`) exactly on an event whose keycode is 56 (left Shift)
with the shift flag down-bit clear (a release) and whose pre-event state
satisfies the configured mode: `ctrl_shift` iff left shift was pressed and
`ctrl_pressed`, `cmd_shift` iff left shift was pressed and `cmd_pressed`,
`both` iff left shift was pressed and either; at most one Toggle per
release and none on any other event. -/
theorem callback_toggle_iff (app : AppState) (e : Event)
    (hen : app.enabled = true) :
    (callback app e).toggled = true ↔
      (e.keycode = 56 ∧ eventShiftDown e = false ∧ app.left_shift_pressed = true ∧
        ((app.shortcut_mode = SHORTCUT_CTRL_SHIFT ∧ app.ctrl_pressed = true) ∨
         (app.shortcut_mode = SHORTCUT_CMD_SHIFT ∧ app.cmd_pressed = true) ∨
         (app.shortcut_mode = SHORTCUT_BOTH ∧
           (app.ctrl_pressed = true ∨ app.cmd_pressed = true)))) := by
  unfold callback
  rw [if_neg (by simp [hen])]
  by_cases hk : e.keycode = 56
  · simp only [hk]
    norm_num
    unfold handleLeftShift shouldToggle
    rcases hs : eventShiftDown e with _ | _
    · simp only [Bool.false_eq_true, if_false, if_pos rfl]
      split_ifs <;> simp_all
    · simp
  · simp [hk]

end InputSourceToggle

namespace InputSourceToggle

/-- Witness for C1: with `ctrl_shift` mode, `ctrl_pressed` and
`left_shift_pressed` set, a keycode-56 event with an empty bitmask (the
release) triggers a Toggle. -/
theorem callback_toggle_iff_witness :
    (callback ⟨true, true, false, true, SHORTCUT_CTRL_SHIFT⟩ ⟨56, 0⟩).toggled = true :=
  (callback_toggle_iff ⟨true, true, false, true, SHORTCUT_CTRL_SHIFT⟩ ⟨56, 0⟩ rfl).mpr
    ⟨rfl, rfl, rfl, Or.inl ⟨rfl, rfl⟩⟩

/-- C3 counterexample: a left-Shift press processed while disabled leaves
`left_shift_pressed` untouched (the callback returns at once), whereas the
same event processed while enabled sets it; the disabled detector does not
update its modifier state as it would when enabled. -/
theorem callback_disabled_divergence :
    (callback ⟨false, false, false, false, SHORTCUT_CTRL_SHIFT⟩
        ⟨56, kCGEventFlagMaskShift⟩).state.left_shift_pressed = false ∧
      (callback ⟨true, false, false, false, SHORTCUT_CTRL_SHIFT⟩
        ⟨56, kCGEventFlagMaskShift⟩).state.left_shift_pressed = true := by
  constructor <;> rfl

/-- C3 amended: while the enabled flag is false the callback emits no Toggle
and performs no state bookkeeping at all — it returns the event immediately
with the app state unchanged. -/
theorem callback_disabled_noop (app : AppState) (e : Event)
    (h : app.enabled = false) :
    callback app e = ⟨app, false, e⟩ := by
  unfold callback
  rw [if_pos h]

/-- Witness for the amended C3: a disabled state is left unchanged by a
left-Shift press and no Toggle is emitted. -/
theorem callback_disabled_noop_witness :
    callback ⟨false, true, true, true, SHORTCUT_BOTH⟩ ⟨56, kCGEventFlagMaskShift⟩ =
      ⟨⟨false, true, true, true, SHORTCUT_BOTH⟩, false, ⟨56, kCGEventFlagMaskShift⟩⟩ :=
  callback_disabled_noop ⟨false, true, true, true, SHORTCUT_BOTH⟩
    ⟨56, kCGEventFlagMaskShift⟩ rfl

/-- C8: while enabled, after the callback handles any event: (a) if the
event was a left-Shift release (keycode 56, shift bit clear) then
`left_shift_pressed` is false, Toggle or not; (b) if the event's bitmask has
the control bit clear then `ctrl_pressed` is false, and symmetrically for
the command bit and `cmd_pressed`. -/
theorem callback_reset_invariants (app : AppState) (e : Event)
    (hen : app.enabled = true) :
    ((e.keycode = 56 ∧ eventShiftDown e = false) →
      (callback app e).state.left_shift_pressed = false) ∧
    (eventCtrlDown e = false → (callback app e).state.ctrl_pressed = false) ∧
    (eventCmdDown e = false → (callback app e).state.cmd_pressed = false) := by
  unfold callback
  rw [if_neg (by simp [hen])]
  refine ⟨fun hrel => ?_, fun hc => ?_, fun hm => ?_⟩
  · obtain ⟨hk, hs⟩ := hrel
    simp only [hk, hs, if_pos rfl]
    unfold handleLeftShift
    split_ifs <;> simp_all
  · simp only [hc]
    split_ifs <;> simp_all
  · simp only [hm]
    split_ifs <;> simp_all

/-- Witness for C8: a keycode-56 release with all modifier bits clear, from
a state with all three booleans set, clears all three. -/
theorem callback_reset_invariants_witness :
    ((56 = 56 ∧ eventShiftDown ⟨56, 0⟩ = false) →
      (callback ⟨true, true, true, true, SHORTCUT_BOTH⟩ ⟨56, 0⟩).state.left_shift_pressed = false) ∧
    (eventCtrlDown ⟨56, 0⟩ = false →
      (callback ⟨true, true, true, true, SHORTCUT_BOTH⟩ ⟨56, 0⟩).state.ctrl_pressed = false) ∧
    (eventCmdDown ⟨56, 0⟩ = false →
      (callback ⟨true, true, true, true, SHORTCUT_BOTH⟩ ⟨56, 0⟩).state.cmd_pressed = false) :=
  callback_reset_invariants ⟨true, true, true, true, SHORTCUT_BOTH⟩ ⟨56, 0⟩ rfl

end InputSourceToggle

namespace InputSourceToggle

/-- A handle whose conversion does not raise converts to its decoded value. -/
theorem cfstring_to_string_of_decodesOk (c : CFStr) (h : decodesOk c = true) :
    cfstring_to_string c = Except.ok (cfDecoded c) := by
  cases c <;> simp_all [decodesOk, cfstring_to_string, cfDecoded]

/-- When every id on the list converts without raising, the current-index
loop returns the first-match index shifted by the start offset. -/
theorem findCurrentIndexAux_of_decodesOk (cur : Option String)
    (l : List InputSource) (i : Nat)
    (h : ∀ s ∈ l, decodesOk s.sourceID = true) :
    findCurrentIndexAux cur l i =
      Except.ok ((claimIndex cur l).map (· + i)) := by
  induction l generalizing i with
  | nil => simp [findCurrentIndexAux, claimIndex]
  | cons s rest ih =>
    have hs : decodesOk s.sourceID = true := h s (by simp)
    rw [findCurrentIndexAux, cfstring_to_string_of_decodesOk _ hs]
    by_cases hm : cfDecoded s.sourceID = cur
    · simp [claimIndex, hm]
    · rw [ih (i + 1) (fun x hx => h x (List.mem_cons_of_mem _ hx))]
      simp only [claimIndex, hm, if_false, Option.map_map]
      cases claimIndex cur rest <;> simp
      omega

/-- C2: whenever the fetched list filters to a selectable keyboard list of
length at least 2 and no conversion raises, the switcher activates exactly
the element at index `(i + 1) mod N`, where `i` is the index of the first
element whose id equals the current source's id and `i = 0` when no id
matches. -/
theorem toggleInputSource_activates_next (w : OSWorld)
    (lst sel : List InputSource)
    (h1 : w.sourceList = some lst)
    (h2 : filterSelectable lst = Except.ok sel)
    (h3 : 2 ≤ sel.length)
    (h4 : decodesOk w.currentID = true)
    (h5 : ∀ s ∈ sel, decodesOk s.sourceID = true) :
    (toggleInputSource w).trace.activated =
      some (sel.getD
        (((claimIndex (cfDecoded w.currentID) sel).getD 0 + 1) % sel.length)
        defaultSource) := by
  unfold toggleInputSource toggleBody
  rw [h1]
  simp only [h2]
  rw [if_neg (by omega)]
  rw [cfstring_to_string_of_decodesOk _ h4]
  simp only [findCurrentIndexAux_of_decodesOk _ _ _ h5]
  have hmap : (claimIndex (cfDecoded w.currentID) sel).map (· + 0) =
      claimIndex (cfDecoded w.currentID) sel := by
    cases claimIndex (cfDecoded w.currentID) sel <;> simp
  rw [hmap]
  cases hname : cfstring_to_string
      (sel.getD (((claimIndex (cfDecoded w.currentID) sel).getD 0 + 1) % sel.length)
        defaultSource).localizedName <;>
    simp

end InputSourceToggle

namespace InputSourceToggle

/-- Witness for C2: two selectable keyboard sources with ids `us` and
`hebrew`, current id `us`: the switcher activates the `hebrew` source. -/
theorem toggleInputSource_activates_next_witness :
    (toggleInputSource
      ⟨some
        [⟨kTISCategoryKeyboardInputSource, some true, CFStr.str "us", CFStr.str "US"⟩,
         ⟨kTISCategoryKeyboardInputSource, some true, CFStr.str "hebrew", CFStr.str "Hebrew"⟩],
        CFStr.str "us"⟩).trace.activated =
      some ⟨kTISCategoryKeyboardInputSource, some true, CFStr.str "hebrew", CFStr.str "Hebrew"⟩ :=
  (toggleInputSource_activates_next
    ⟨some
      [⟨kTISCategoryKeyboardInputSource, some true, CFStr.str "us", CFStr.str "US"⟩,
       ⟨kTISCategoryKeyboardInputSource, some true, CFStr.str "hebrew", CFStr.str "Hebrew"⟩],
      CFStr.str "us"⟩
    [⟨kTISCategoryKeyboardInputSource, some true, CFStr.str "us", CFStr.str "US"⟩,
     ⟨kTISCategoryKeyboardInputSource, some true, CFStr.str "hebrew", CFStr.str "Hebrew"⟩]
    [⟨kTISCategoryKeyboardInputSource, some true, CFStr.str "us", CFStr.str "US"⟩,
     ⟨kTISCategoryKeyboardInputSource, some true, CFStr.str "hebrew", CFStr.str "Hebrew"⟩]
    rfl rfl (by decide) (by decide) (by decide)).trans (by decide)

/-- C4: whenever the fetched list filters to fewer than two selectable
keyboard sources, the invocation makes no activation call, releases the
list, and returns silently without an error. -/
theorem toggleInputSource_noop_when_insufficient (w : OSWorld)
    (lst sel : List InputSource)
    (h1 : w.sourceList = some lst)
    (h2 : filterSelectable lst = Except.ok sel)
    (h3 : sel.length < 2) :
    toggleInputSource w =
      ⟨{ noTrace with acquiredSources := true, releasedSources := true }, false⟩ := by
  unfold toggleInputSource toggleBody
  rw [h1]
  simp only [h2]
  rw [if_pos h3]

/-- Witness for C4: a single selectable keyboard source: the invocation is
a silent no-op that activates nothing and reports no error. -/
theorem toggleInputSource_noop_when_insufficient_witness :
    toggleInputSource
      ⟨some [⟨kTISCategoryKeyboardInputSource, some true, CFStr.str "us", CFStr.str "US"⟩],
        CFStr.null⟩ =
      ⟨{ noTrace with acquiredSources := true, releasedSources := true }, false⟩ :=
  toggleInputSource_noop_when_insufficient
    ⟨some [⟨kTISCategoryKeyboardInputSource, some true, CFStr.str "us", CFStr.str "US"⟩],
      CFStr.null⟩
    [⟨kTISCategoryKeyboardInputSource, some true, CFStr.str "us", CFStr.str "US"⟩]
    [⟨kTISCategoryKeyboardInputSource, some true, CFStr.str "us", CFStr.str "US"⟩]
    rfl rfl (by decide)

/-- C6: every exception the body of a toggle attempt raises is caught at
the boundary of `toggleInputSource`: the invocation still returns a normal
result, carrying the logged-error flag; nothing propagates to the caller,
so the next attempt runs as usual. -/
theorem toggleInputSource_catches_failures (w : OSWorld) (t : ToggleTrace)
    (h : toggleBody w = Except.error t) :
    toggleInputSource w = ⟨t, true⟩ := by
  unfold toggleInputSource
  rw [h]

/-- Witness for C6: a source whose category CFString raises during
conversion makes the body raise; the invocation returns normally with the
caught-and-logged flag set. -/
theorem toggleInputSource_catches_failures_witness :
    toggleInputSource
      ⟨some [⟨CFStr.raisesDecode, some true, CFStr.null, CFStr.null⟩], CFStr.null⟩ =
      ⟨⟨true, false, false, false, none, false⟩, true⟩ :=
  toggleInputSource_catches_failures
    ⟨some [⟨CFStr.raisesDecode, some true, CFStr.null, CFStr.null⟩], CFStr.null⟩
    ⟨true, false, false, false, none, false⟩ rfl

/-- C7 exhibit: with two selectable keyboard sources and a current-source
id CFString whose conversion raises, the handler catches the exception but
the invocation returns with the source list and the copied current-source
handle acquired and never released — the cleanup runs only on the normal
path and the fewer-than-two early abort, not on the failure path. -/
theorem toggleInputSource_leaks_on_failure :
    toggleInputSource
      ⟨some
        [⟨kTISCategoryKeyboardInputSource, some true, CFStr.str "us", CFStr.str "US"⟩,
         ⟨kTISCategoryKeyboardInputSource, some true, CFStr.str "hebrew", CFStr.str "Hebrew"⟩],
        CFStr.raisesDecode⟩ =
      ⟨⟨true, false, true, false, none, false⟩, true⟩ := by
  decide

end InputSourceToggle

namespace InputSourceToggle

/-- C9: for each of the three variants, setting the mode (which persists it
immediately) and then loading preferences at a fresh startup yields the
same variant back: save followed by load is the identity on valid modes. -/
theorem shortcut_mode_roundtrip (app : AppState) (d : PrefStore) :
    (loadPreferences (setCtrlShift app d).2 initialApp).shortcut_mode =
        SHORTCUT_CTRL_SHIFT ∧
      (loadPreferences (setCmdShift app d).2 initialApp).shortcut_mode =
        SHORTCUT_CMD_SHIFT ∧
      (loadPreferences (setBoth app d).2 initialApp).shortcut_mode =
        SHORTCUT_BOTH := by
  refine ⟨?_, ?_, ?_⟩ <;> rfl

/-- C10: at startup, a stored `shortcut_mode` that is absent or is any
string other than the three literals is never adopted: loading leaves the
fresh state, whose mode is the default `ctrl_shift`, unchanged. -/
theorem loadPreferences_rejects_invalid (s : String)
    (h1 : s ≠ SHORTCUT_CTRL_SHIFT) (h2 : s ≠ SHORTCUT_CMD_SHIFT)
    (h3 : s ≠ SHORTCUT_BOTH) :
    loadPreferences ⟨some s⟩ initialApp = initialApp ∧
      loadPreferences ⟨none⟩ initialApp = initialApp ∧
      (loadPreferences ⟨some s⟩ initialApp).shortcut_mode = SHORTCUT_CTRL_SHIFT := by
  have hmain : loadPreferences ⟨some s⟩ initialApp = initialApp := by
    show (if s ≠ "" ∧ (s = SHORTCUT_CTRL_SHIFT ∨ s = SHORTCUT_CMD_SHIFT ∨
        s = SHORTCUT_BOTH) then { initialApp with shortcut_mode := s }
      else initialApp) = initialApp
    rw [if_neg]
    rintro ⟨-, h | h | h⟩
    · exact h1 h
    · exact h2 h
    · exact h3 h
  refine ⟨hmain, rfl, ?_⟩
  rw [hmain]
  rfl

/-- Witness for C10: the stored string `qwerty` is rejected and the mode
stays at the default. -/
theorem loadPreferences_rejects_invalid_witness :
    loadPreferences ⟨some "qwerty"⟩ initialApp = initialApp ∧
      loadPreferences ⟨none⟩ initialApp = initialApp ∧
      (loadPreferences ⟨some "qwerty"⟩ initialApp).shortcut_mode =
        SHORTCUT_CTRL_SHIFT :=
  loadPreferences_rejects_invalid "qwerty" (by decide) (by decide) (by decide)

end InputSourceToggle
